import Mathlib

/-!
Verification of the conditional schema validation engine of
`src/packages/react-app/src/models/Bounty.ts` (a yup-based record validator
for "Bounty" records).

The embedding models the yup validation pipeline for the concrete schemas
declared in the source file:

* casting: absent fields are replaced by their declared defaults
  (`currency` defaults to `"BANK"`, `scale` defaults to `0`); an absent
  object-typed field whose resolved schema carries no explicit default is
  replaced by the object built from its sub-field defaults (yup invents this
  default for object schemas), while `.default(undefined)` keeps it absent;
* validation: the object-level tests (`noUnknown`, the `is-optional`
  pairing/completeness tests), the presence tests added by
  `requiredForPost` (`.defined()` for POST, `.optional()` otherwise), the
  `min(0)` bound on `reward.amount`, the `oneOf` status enumeration, and the
  `required()` tests of `BountyClaimSchema` (for strings/arrays, yup's
  presence additionally demands non-emptiness; for objects, only non-null).

JavaScript values are modelled with `Option`: `none` is an absent /
`undefined` key.  String truthiness (`!!s`) is `s` present and non-empty;
numeric presence (`!!n || n === 0`) is just presence.
-/

namespace BountyBoard

/-- The operation mode threaded through validation as the `$method`
context: `POST` is Create, `PATCH` is Update. -/
inductive Method
  | POST
  | PATCH
deriving DecidableEq

/-- The presence requirement a resolved yup schema carries after
`requiredForPost` has been applied. -/
inductive SchemaReq
  | defined
  | optional
  | optionalUndefined
deriving DecidableEq

/-- `requiredForPost` from the source: POST makes the field `.defined()`;
PATCH makes an object field `.optional().default(undefined)` (to prevent
overwriting the stored object) and a scalar field plain `.optional()`. -/
def requiredForPost (method : Method) (isObject : Bool) : SchemaReq :=
  match method with
  | .POST => .defined
  | .PATCH => if isObject then .optionalUndefined else .optional

/-- The structured violations the validator can report. -/
inductive Violation
  | MissingRequiredField (path : String)
  | UnknownField (keys : List String)
  | InconsistentPair (path : String)
  | IncompleteComposite (path : String)
  | InvalidEnumValue (path : String) (value : String)
  | BelowMin (path : String)
deriving DecidableEq

/-- JavaScript truthiness of an optional string: present and non-empty. -/
def truthy : Option String → Bool
  | none => false
  | some s => !(s == "")

/-- A Discord identity object: two optional string fields. -/
structure DiscordUserVal where
  discordId : Option String
  discordHandle : Option String
deriving DecidableEq

/-- `bothRequiredIfOneRequired` from the source: if either field of the
pair is truthy, both must be truthy; an absent or fully-falsy pair passes. -/
def bothRequiredIfOneRequired : Option DiscordUserVal → Bool
  | none => true
  | some params =>
    if truthy params.discordHandle || truthy params.discordId then
      truthy params.discordId && truthy params.discordHandle
    else
      true

/-- The reward composite value object. -/
structure RewardVal where
  amount : Option Int
  currency : Option String
  scale : Option Int
  amountWithoutScale : Option Int
deriving DecidableEq

/-- Casting a present reward object applies the declared sub-field
defaults: `currency` defaults to `"BANK"`, `scale` defaults to `0`. -/
def castReward (r : RewardVal) : RewardVal :=
  { r with
    currency := some (r.currency.getD "BANK"),
    scale := some (r.scale.getD 0) }

/-- The default object yup invents for the `Reward` schema (each sub-field
replaced by its own default). -/
def rewardDefault : RewardVal := castReward ⟨none, none, none, none⟩

/-- Casting the `reward` field of a record: a present object gets sub-field
defaults; an absent one becomes the invented default under `.defined()`
(POST) and stays absent under `.optional().default(undefined)` (PATCH). -/
def castRewardField (m : Method) : Option RewardVal → Option RewardVal
  | some r => some (castReward r)
  | none =>
    match requiredForPost m true with
    | .defined => some rewardDefault
    | _ => none

/-- The `is-optional` completeness test body of the `Reward` schema:
`(!!amount || amount === 0) && (!!scale || scale === 0) &&
(!!amountWithoutScale || amountWithoutScale === 0) && !!currency`.
For a number, `!!n || n === 0` is exactly presence. -/
def rewardAllDefined (r : RewardVal) : Bool :=
  r.amount.isSome && r.scale.isSome && r.amountWithoutScale.isSome
    && truthy r.currency

/-- The `Reward` object-level test applied to the (possibly absent)
reward value: an absent object passes. -/
def rewardTest : Option RewardVal → Bool
  | none => true
  | some r => rewardAllDefined r

/-- The presence test attached by `requiredForPost`: only `.defined()`
rejects an absent value. -/
def presenceCheck (req : SchemaReq) (path : String) (present : Bool) :
    List Violation :=
  match req with
  | .defined => if present then [] else [.MissingRequiredField path]
  | _ => []

/-- A yup `.test(...)`: one violation when the predicate returns false. -/
def testCheck (ok : Bool) (v : Violation) : List Violation :=
  if ok then [] else [v]

/-- The `min(0)` bound on `reward.amount`; yup's `min` skips absent
values. -/
def minCheck (path : String) : Option Int → List Violation
  | none => []
  | some v => if v < 0 then [.BelowMin path] else []

/-- Per-mode validation of the `reward` field (cast, then the presence
test, the completeness test and the sub-field tests). -/
def rewardViolations (m : Method) (reward : Option RewardVal) :
    List Violation :=
  let c := castRewardField m reward
  presenceCheck (requiredForPost m true) "reward" c.isSome
    ++ testCheck (rewardTest c) (.IncompleteComposite "reward")
    ++ (match c with
        | none => []
        | some r =>
          minCheck "reward.amount" r.amount
            ++ presenceCheck (requiredForPost m false) "reward.amount"
                r.amount.isSome
            ++ presenceCheck (requiredForPost m false) "reward.currency"
                r.currency.isSome
            ++ presenceCheck (requiredForPost m false) "reward.scale"
                r.scale.isSome
            ++ presenceCheck (requiredForPost m false)
                "reward.amountWithoutScale" r.amountWithoutScale.isSome)

/-- Validation of the plain `DiscordUser` schema at a given path: only the
`is-optional` pairing test. -/
def discordUserViolations (path : String) (u : Option DiscordUserVal) :
    List Violation :=
  testCheck (bothRequiredIfOneRequired u) (.InconsistentPair path)

/-- Casting a `RequiredDiscordUser`-typed field: under POST the resolved
schema carries no explicit default, so yup invents the object of sub-field
defaults (both `undefined`); under PATCH `.default(undefined)` keeps the
field absent. -/
def castRequiredDiscordUser (m : Method) :
    Option DiscordUserVal → Option DiscordUserVal
  | some u => some u
  | none =>
    match requiredForPost m true with
    | .defined => some ⟨none, none⟩
    | _ => none

/-- Per-mode validation of a `RequiredDiscordUser`-typed field: cast, the
object presence test, the pairing test, then the mode-dependent sub-field
presence tests. -/
def requiredDiscordUserViolations (m : Method) (path : String)
    (u0 : Option DiscordUserVal) : List Violation :=
  let u := castRequiredDiscordUser m u0
  presenceCheck (requiredForPost m true) path u.isSome
    ++ testCheck (bothRequiredIfOneRequired u) (.InconsistentPair path)
    ++ (match u with
        | none => []
        | some v =>
          presenceCheck (requiredForPost m false) (path ++ ".discordId")
              v.discordId.isSome
            ++ presenceCheck (requiredForPost m false)
                (path ++ ".discordHandle") v.discordHandle.isSome)

/-- The closed status enumeration of the `Status` schema. -/
def statusList : List String :=
  ["Draft", "Open", "In-Progress", "In-Review", "Completed", "Deleted"]

/-- The `oneOf` test of the `Status` schema: absent values pass; a present
value outside the enumeration is an invalid enum value. -/
def oneOfCheck (path : String) : Option String → List Violation
  | none => []
  | some v =>
    if statusList.contains v then [] else [.InvalidEnumValue path v]

/-- One `StatusHistory` entry: an optional status and timestamp. -/
structure StatusHistoryVal where
  status : Option String
  modifiedAt : Option String
deriving DecidableEq

/-- Validation of the entries of a status-history array starting at
index `i`: each entry's status runs through the enumeration test. -/
def statusHistoryListViolations (base : String) (i : Nat) :
    List StatusHistoryVal → List Violation
  | [] => []
  | e :: rest =>
    oneOfCheck (base ++ "[" ++ toString i ++ "].status") e.status
      ++ statusHistoryListViolations base (i + 1) rest

/-- Validation of an optional status-history field: an absent array is
skipped, a present one has each entry checked. -/
def statusHistoryField (base : String) :
    Option (List StatusHistoryVal) → List Violation
  | none => []
  | some es => statusHistoryListViolations base 0 es

/-- The `noUnknown(true)` closed-schema test: a candidate carrying keys
outside the declared field set is rejected with one violation naming the
unknown keys. -/
def unknownCheck (ks : List String) : List Violation :=
  if ks.isEmpty then [] else [.UnknownField ks]

/-- A candidate record for `BountySchema`: every declared field (absent
keys are `none`) plus the list of keys the candidate carries outside the
declared field set. -/
structure BountyCandidate where
  _id : Option String
  title : Option String
  description : Option String
  criteria : Option String
  customerId : Option String
  status : Option String
  dueAt : Option String
  reward : Option RewardVal
  statusHistory : Option (List StatusHistoryVal)
  discordMessageId : Option String
  submissionNotes : Option String
  submissionUrl : Option String
  createdAt : Option String
  claimedAt : Option String
  submittedAt : Option String
  reviewedAt : Option String
  createdBy : Option DiscordUserVal
  claimedBy : Option DiscordUserVal
  submittedBy : Option DiscordUserVal
  reviewedBy : Option DiscordUserVal
  extraKeys : List String
deriving DecidableEq

/-- Casting a candidate: the two object fields resolved through
`requiredForPost` get their cast; the `claimedBy`/`submittedBy`/`reviewedBy`
fields carry `.default(undefined)` and stay as given; scalar fields have no
defaults. The cast value is the normalized output yup returns on success. -/
def castBounty (m : Method) (c : BountyCandidate) : BountyCandidate :=
  { c with
    reward := castRewardField m c.reward,
    createdBy := castRequiredDiscordUser m c.createdBy }

/-- The mode-dependent presence test of a governed scalar field. -/
def scalarReqCheck (m : Method) (path : String) (v : Option String) :
    List Violation :=
  presenceCheck (requiredForPost m false) path v.isSome

/-- `BountySchema` validation: the closed-schema test, the governed scalar
presence tests, the status enumeration, the reward composite, the
status-history entries, and the four identity pairs, in declaration
order. -/
def validateBounty (m : Method) (c : BountyCandidate) : List Violation :=
  unknownCheck c.extraKeys
    ++ scalarReqCheck m "title" c.title
    ++ scalarReqCheck m "description" c.description
    ++ scalarReqCheck m "criteria" c.criteria
    ++ scalarReqCheck m "customerId" c.customerId
    ++ scalarReqCheck m "status" c.status
    ++ oneOfCheck "status" c.status
    ++ scalarReqCheck m "dueAt" c.dueAt
    ++ rewardViolations m c.reward
    ++ statusHistoryField "statusHistory" c.statusHistory
    ++ scalarReqCheck m "createdAt" c.createdAt
    ++ requiredDiscordUserViolations m "createdBy" c.createdBy
    ++ discordUserViolations "claimedBy" c.claimedBy
    ++ discordUserViolations "submittedBy" c.submittedBy
    ++ discordUserViolations "reviewedBy" c.reviewedBy

/-- A candidate record for `BountyClaimSchema`. -/
structure ClaimCandidate where
  submissionNotes : Option String
  claimedBy : Option DiscordUserVal
  status : Option String
  statusHistory : Option (List StatusHistoryVal)
  extraKeys : List String
deriving DecidableEq

/-- Casting a plain `DiscordUser`-typed field that carries no explicit
default (as in `BountyClaimSchema`): an absent value is replaced by the
invented object of sub-field defaults. -/
def castOptionalDiscordUser : Option DiscordUserVal → Option DiscordUserVal
  | some u => some u
  | none => some ⟨none, none⟩

/-- yup's `required()` presence for a string: present and non-empty. -/
def requiredStringCheck (path : String) : Option String → List Violation
  | none => [.MissingRequiredField path]
  | some s => if s == "" then [.MissingRequiredField path] else []

/-- yup's `required()` presence for a `mixed` value: merely non-null. -/
def requiredMixedCheck (path : String) (v : Option String) : List Violation :=
  if v.isSome then [] else [.MissingRequiredField path]

/-- yup's `required()` presence for an array: present and non-empty. -/
def requiredArrayCheck (path : String) :
    Option (List StatusHistoryVal) → List Violation
  | none => [.MissingRequiredField path]
  | some es => if es.isEmpty then [.MissingRequiredField path] else []

/-- `BountyClaimSchema` validation: mode-independent; `submissionNotes`,
`status` and `statusHistory` are `required()`; `claimedBy` is
`DiscordUser.required()`, whose presence test runs on the cast value (the
invented default object when the key is absent) and whose pairing test
always runs. -/
def validateClaim (c : ClaimCandidate) : List Violation :=
  let claimer := castOptionalDiscordUser c.claimedBy
  unknownCheck c.extraKeys
    ++ requiredStringCheck "submissionNotes" c.submissionNotes
    ++ testCheck claimer.isSome (.MissingRequiredField "claimedBy")
    ++ testCheck (bothRequiredIfOneRequired claimer) (.InconsistentPair "claimedBy")
    ++ requiredMixedCheck "status" c.status
    ++ oneOfCheck "status" c.status
    ++ requiredArrayCheck "statusHistory" c.statusHistory
    ++ statusHistoryField "statusHistory" c.statusHistory

/-- The scalar (string-typed) top-level fields of `BountySchema`. -/
inductive ScalarField
  | idField
  | title
  | description
  | criteria
  | customerId
  | status
  | dueAt
  | discordMessageId
  | submissionNotes
  | submissionUrl
  | createdAt
  | claimedAt
  | submittedAt
  | reviewedAt
deriving DecidableEq

/-- Projection of a scalar field out of a candidate. -/
def getScalar : ScalarField → BountyCandidate → Option String
  | .idField => fun c => c._id
  | .title => fun c => c.title
  | .description => fun c => c.description
  | .criteria => fun c => c.criteria
  | .customerId => fun c => c.customerId
  | .status => fun c => c.status
  | .dueAt => fun c => c.dueAt
  | .discordMessageId => fun c => c.discordMessageId
  | .submissionNotes => fun c => c.submissionNotes
  | .submissionUrl => fun c => c.submissionUrl
  | .createdAt => fun c => c.createdAt
  | .claimedAt => fun c => c.claimedAt
  | .submittedAt => fun c => c.submittedAt
  | .reviewedAt => fun c => c.reviewedAt

/-- Overwriting a scalar field of a candidate. -/
def setScalar : ScalarField → Option String → BountyCandidate → BountyCandidate
  | .idField, v => fun c => { c with _id := v }
  | .title, v => fun c => { c with title := v }
  | .description, v => fun c => { c with description := v }
  | .criteria, v => fun c => { c with criteria := v }
  | .customerId, v => fun c => { c with customerId := v }
  | .status, v => fun c => { c with status := v }
  | .dueAt, v => fun c => { c with dueAt := v }
  | .discordMessageId, v => fun c => { c with discordMessageId := v }
  | .submissionNotes, v => fun c => { c with submissionNotes := v }
  | .submissionUrl, v => fun c => { c with submissionUrl := v }
  | .createdAt, v => fun c => { c with createdAt := v }
  | .claimedAt, v => fun c => { c with claimedAt := v }
  | .submittedAt, v => fun c => { c with submittedAt := v }
  | .reviewedAt, v => fun c => { c with reviewedAt := v }

/-- The schema path of a scalar field. -/
def scalarPath : ScalarField → String
  | .idField => "_id"
  | .title => "title"
  | .description => "description"
  | .criteria => "criteria"
  | .customerId => "customerId"
  | .status => "status"
  | .dueAt => "dueAt"
  | .discordMessageId => "discordMessageId"
  | .submissionNotes => "submissionNotes"
  | .submissionUrl => "submissionUrl"
  | .createdAt => "createdAt"
  | .claimedAt => "claimedAt"
  | .submittedAt => "submittedAt"
  | .reviewedAt => "reviewedAt"

/-- Whether a scalar field is governed by the mode-aware
`requiredForPost` policy (carries `.when($method, requiredForPost)` in the
source). -/
def governedScalar : ScalarField → Bool
  | .title => true
  | .description => true
  | .criteria => true
  | .customerId => true
  | .status => true
  | .dueAt => true
  | .createdAt => true
  | _ => false

/-- Merging one field of a validated Update output over the stored record:
a provided value overwrites, an absent one keeps the stored value. -/
def mergeScalar (stored new : Option String) : Option String :=
  match new with
  | some v => some v
  | none => stored

/-- The candidate of the spec's Create success scenario. -/
def baseCreate : BountyCandidate where
  _id := none
  title := some "Fix bug"
  description := some "desc"
  criteria := some "crit"
  customerId := some "c1"
  status := some "Draft"
  dueAt := some "2024-01-01"
  reward := some ⟨some 100, some "BANK", some 2, some 1⟩
  statusHistory := none
  discordMessageId := none
  submissionNotes := none
  submissionUrl := none
  createdAt := some "2024-01-01"
  claimedAt := none
  submittedAt := none
  reviewedAt := none
  createdBy := some ⟨some "1", some "h"⟩
  claimedBy := none
  submittedBy := none
  reviewedBy := none
  extraKeys := []

/-- A fully-absent candidate. -/
def emptyCandidate : BountyCandidate where
  _id := none
  title := none
  description := none
  criteria := none
  customerId := none
  status := none
  dueAt := none
  reward := none
  statusHistory := none
  discordMessageId := none
  submissionNotes := none
  submissionUrl := none
  createdAt := none
  claimedAt := none
  submittedAt := none
  reviewedAt := none
  createdBy := none
  claimedBy := none
  submittedBy := none
  reviewedBy := none
  extraKeys := []

example : validateBounty .POST baseCreate = [] := by decide

example : validateBounty .PATCH emptyCandidate = [] := by decide

/-! ## Membership characterizations of the atomic checks -/

@[simp]
theorem mem_testCheck {x v : Violation} {ok : Bool} :
    x ∈ testCheck ok v ↔ ok = false ∧ x = v := by
  cases ok <;> simp [testCheck]

@[simp]
theorem mem_unknownCheck {x : Violation} {ks : List String} :
    x ∈ unknownCheck ks ↔ ks ≠ [] ∧ x = .UnknownField ks := by
  cases ks <;> simp [unknownCheck]

@[simp]
theorem mem_presenceCheck {x : Violation} {req : SchemaReq} {p : String}
    {b : Bool} :
    x ∈ presenceCheck req p b ↔
      req = .defined ∧ b = false ∧ x = .MissingRequiredField p := by
  cases req <;> cases b <;> simp [presenceCheck]

@[simp]
theorem mem_scalarReqCheck {x : Violation} {m : Method} {p : String}
    {v : Option String} :
    x ∈ scalarReqCheck m p v ↔
      m = .POST ∧ v = none ∧ x = .MissingRequiredField p := by
  cases m <;> cases v <;> simp [scalarReqCheck, requiredForPost]

@[simp]
theorem mem_oneOfCheck {x : Violation} {p : String} {v : Option String} :
    x ∈ oneOfCheck p v ↔
      ∃ s, v = some s ∧ statusList.contains s = false ∧
        x = .InvalidEnumValue p s := by
  cases v with
  | none => simp [oneOfCheck]
  | some s => by_cases h : statusList.contains s <;> simp [oneOfCheck, h]

@[simp]
theorem mem_minCheck {x : Violation} {p : String} {v : Option Int} :
    x ∈ minCheck p v ↔ ∃ a, v = some a ∧ a < 0 ∧ x = .BelowMin p := by
  cases v with
  | none => simp [minCheck]
  | some a => by_cases h : a < 0 <;> simp [minCheck, h]

@[simp]
theorem mem_discordUserViolations {x : Violation} {p : String}
    {u : Option DiscordUserVal} :
    x ∈ discordUserViolations p u ↔
      bothRequiredIfOneRequired u = false ∧ x = .InconsistentPair p := by
  simp [discordUserViolations]

@[simp]
theorem mem_requiredStringCheck {x : Violation} {p : String}
    {v : Option String} :
    x ∈ requiredStringCheck p v ↔
      (v = none ∨ v = some "") ∧ x = .MissingRequiredField p := by
  cases v with
  | none => simp [requiredStringCheck]
  | some s => by_cases h : s = "" <;> simp [requiredStringCheck, h]

@[simp]
theorem mem_requiredMixedCheck {x : Violation} {p : String}
    {v : Option String} :
    x ∈ requiredMixedCheck p v ↔ v = none ∧ x = .MissingRequiredField p := by
  cases v <;> simp [requiredMixedCheck]

@[simp]
theorem mem_requiredArrayCheck {x : Violation} {p : String}
    {v : Option (List StatusHistoryVal)} :
    x ∈ requiredArrayCheck p v ↔
      (v = none ∨ v = some []) ∧ x = .MissingRequiredField p := by
  cases v with
  | none => simp [requiredArrayCheck]
  | some es => cases es <;> simp [requiredArrayCheck]

/-- Every violation a status-history array produces is an invalid enum
value whose path starts with the array's base path. -/
theorem statusHistoryListViolations_shape {x : Violation} {b : String}
    {i : Nat} {es : List StatusHistoryVal}
    (h : x ∈ statusHistoryListViolations b i es) :
    ∃ p s, x = .InvalidEnumValue p s := by
  induction es generalizing i with
  | nil => simp [statusHistoryListViolations] at h
  | cons e rest ih =>
    rw [statusHistoryListViolations, List.mem_append] at h
    rcases h with h | h
    · rw [mem_oneOfCheck] at h
      obtain ⟨s, _, _, hx⟩ := h
      exact ⟨_, _, hx⟩
    · exact ih h

/-- Every violation the reward field produces is an incomplete-composite,
a missing-required-field or a below-minimum violation. -/
theorem rewardViolations_shape {x : Violation} {m : Method}
    {r : Option RewardVal} (h : x ∈ rewardViolations m r) :
    (∃ p, x = .MissingRequiredField p) ∨ x = .IncompleteComposite "reward"
      ∨ x = .BelowMin "reward.amount" := by
  rw [rewardViolations] at h
  cases hc : castRewardField m r <;> rw [hc] at h <;>
    simp only [List.mem_append, mem_presenceCheck, mem_testCheck, mem_minCheck,
      List.not_mem_nil, or_false] at h <;>
    aesop

/-- Every violation a `RequiredDiscordUser` field produces is a
missing-required-field violation or an inconsistent-pair violation at the
field's own path. -/
theorem requiredDiscordUserViolations_shape {x : Violation} {m : Method}
    {p : String} {u : Option DiscordUserVal}
    (h : x ∈ requiredDiscordUserViolations m p u) :
    (∃ q, x = .MissingRequiredField q) ∨ x = .InconsistentPair p := by
  rw [requiredDiscordUserViolations] at h
  cases hc : castRequiredDiscordUser m u <;> rw [hc] at h <;>
    simp only [List.mem_append, mem_presenceCheck, mem_testCheck,
      List.not_mem_nil, or_false] at h <;>
    aesop

/-- Every violation an optional status-history field produces is an
invalid enum value. -/
theorem statusHistoryField_shape {x : Violation} {b : String}
    {o : Option (List StatusHistoryVal)} (h : x ∈ statusHistoryField b o) :
    ∃ p s, x = .InvalidEnumValue p s := by
  cases o with
  | none => simp [statusHistoryField] at h
  | some es => exact statusHistoryListViolations_shape h

@[simp]
theorem inconsistentPair_not_mem_rewardViolations {q : String} {m : Method}
    {r : Option RewardVal} :
    Violation.InconsistentPair q ∉ rewardViolations m r := by
  intro h
  rcases rewardViolations_shape h with ⟨p, hp⟩ | hp | hp <;> simp at hp

@[simp]
theorem inconsistentPair_not_mem_statusHistoryField {q b : String}
    {o : Option (List StatusHistoryVal)} :
    Violation.InconsistentPair q ∉ statusHistoryField b o := by
  intro h
  obtain ⟨p, s, hx⟩ := statusHistoryField_shape h
  simp at hx

@[simp]
theorem inconsistentPair_mem_requiredDiscordUserViolations {q : String}
    {m : Method} {p : String} {u : Option DiscordUserVal} :
    Violation.InconsistentPair q ∈ requiredDiscordUserViolations m p u ↔
      q = p ∧
        bothRequiredIfOneRequired (castRequiredDiscordUser m u) = false := by
  cases hc : castRequiredDiscordUser m u with
  | none => simp [requiredDiscordUserViolations, hc, bothRequiredIfOneRequired]
  | some v =>
    simp only [requiredDiscordUserViolations, hc, List.mem_append,
      mem_presenceCheck, mem_testCheck]
    constructor
    · rintro ((⟨_, _, h⟩ | ⟨hb, h⟩) | (⟨_, _, h⟩ | ⟨_, _, h⟩)) <;> simp_all
    · rintro ⟨rfl, hb⟩
      exact Or.inl (Or.inr ⟨hb, rfl⟩)

/-- The pairing test fails exactly when one of the two identity fields is
truthy and the other is not. -/
theorem bothRequired_eq_false_iff {u : DiscordUserVal} :
    bothRequiredIfOneRequired (some u) = false ↔
      truthy u.discordId ≠ truthy u.discordHandle := by
  cases hid : truthy u.discordId <;> cases hh : truthy u.discordHandle <;>
    simp [bothRequiredIfOneRequired, hid, hh]

/-- An unknown key always surfaces as an `UnknownField` violation of the
record validator. -/
theorem unknownField_mem_validateBounty {m : Method} {c : BountyCandidate}
    (h : c.extraKeys ≠ []) :
    Violation.UnknownField c.extraKeys ∈ validateBounty m c := by
  simp [validateBounty, h]

/-- An unknown key always surfaces as an `UnknownField` violation of the
claim validator. -/
theorem unknownField_mem_validateClaim {c : ClaimCandidate}
    (h : c.extraKeys ≠ []) :
    Violation.UnknownField c.extraKeys ∈ validateClaim c := by
  simp [validateClaim, h]

/-- A governed scalar field that is absent in Create mode always surfaces
as a `MissingRequiredField` violation at its own path. -/
theorem governed_missing_mem_post {f : ScalarField} {c : BountyCandidate}
    (hf : governedScalar f = true) (h : getScalar f c = none) :
    Violation.MissingRequiredField (scalarPath f) ∈ validateBounty .POST c := by
  cases f <;> simp_all [validateBounty, scalarPath, getScalar, governedScalar]

/-- A status-history entry whose status falls outside the enumeration
produces an invalid-enum-value violation somewhere in the array's
violations. -/
theorem statusHistory_mem_of_bad {b : String} {es : List StatusHistoryVal}
    {e : StatusHistoryVal} {v : String} (he : e ∈ es) (hs : e.status = some v)
    (hv : statusList.contains v = false) :
    ∀ i, ∃ p, Violation.InvalidEnumValue p v ∈
      statusHistoryListViolations b i es := by
  induction es with
  | nil => cases he
  | cons a rest ih =>
    intro i
    rcases List.mem_cons.1 he with rfl | he2
    · refine ⟨b ++ "[" ++ toString i ++ "].status", ?_⟩
      rw [statusHistoryListViolations]
      refine List.mem_append_left _ ?_
      rw [mem_oneOfCheck]
      exact ⟨v, hs, hv, rfl⟩
    · obtain ⟨p, hp⟩ := ih he2 (i + 1)
      exact ⟨p, by rw [statusHistoryListViolations]
                   exact List.mem_append_right _ hp⟩

/-- An entirely absent reward under Create is cast to the invented default
object (only `currency` and `scale` have defaults) and then fails the
completeness test and the presence tests of `amount`/`amountWithoutScale`. -/
theorem rewardViolations_post_none_eq :
    rewardViolations .POST none =
      [.IncompleteComposite "reward", .MissingRequiredField "reward.amount",
       .MissingRequiredField "reward.amountWithoutScale"] := by decide

/-- An entirely absent `createdBy` under Create is cast to the invented
default object and then fails both sub-field presence tests. -/
theorem requiredDiscordUser_post_none_eq :
    requiredDiscordUserViolations .POST "createdBy" none =
      [.MissingRequiredField "createdBy.discordId",
       .MissingRequiredField "createdBy.discordHandle"] := by decide

/-! ## The claims -/

/-- C1: the mode-aware field policy: under Create every governed field is
required (absence is a validation error — for governed scalars a
`MissingRequiredField` at the field's path, for the composite objects
missing-sub-field violations); under Update a governed scalar is plain
optional (absence survives casting unchanged, producing "no change"), and a
governed composite-object field is optional with absence normalized to the
explicit no-value marker (`none` in the cast output) rather than any merged
object. -/
theorem C1_mode_aware_field_policy :
    (∀ b, requiredForPost .POST b = .defined)
  ∧ requiredForPost .PATCH false = .optional
  ∧ requiredForPost .PATCH true = .optionalUndefined
  ∧ (∀ f c, governedScalar f = true → getScalar f c = none →
        Violation.MissingRequiredField (scalarPath f) ∈ validateBounty .POST c)
  ∧ (∀ c, c.reward = none →
        Violation.MissingRequiredField "reward.amount" ∈
          validateBounty .POST c)
  ∧ (∀ c, c.createdBy = none →
        Violation.MissingRequiredField "createdBy.discordId" ∈
          validateBounty .POST c)
  ∧ (∀ f c, getScalar f c = none → getScalar f (castBounty .PATCH c) = none)
  ∧ (∀ c, c.reward = none → (castBounty .PATCH c).reward = none)
  ∧ (∀ c, c.createdBy = none → (castBounty .PATCH c).createdBy = none)
  ∧ (∀ c, c.claimedBy = none → (castBounty .PATCH c).claimedBy = none) := by
  refine ⟨fun _ => rfl, rfl, rfl, ?_, ?_, ?_, ?_, ?_, ?_, ?_⟩
  · exact fun f c hf h => governed_missing_mem_post hf h
  · intro c h
    simp [validateBounty, h, rewardViolations_post_none_eq]
  · intro c h
    simp [validateBounty, h, requiredDiscordUser_post_none_eq]
  · intro f c h
    cases f <;> simpa [castBounty, getScalar] using h
  · intro c h
    simp [castBounty, castRewardField, h, requiredForPost]
  · intro c h
    simp [castBounty, castRequiredDiscordUser, h, requiredForPost]
  · intro c h
    simpa [castBounty] using h

/-- C2 counterexample: a reward whose `currency` key is absent (and whose
other three fields are present) passes Update-mode validation — the
declared default `"BANK"` fills `currency` during casting — although the
claim demands failure unless all four fields are present. -/
theorem C2_counterexample :
    rewardViolations .PATCH (some ⟨some 0, none, some 0, some 0⟩) = []
  ∧ validateBounty .PATCH
      { emptyCandidate with reward := some ⟨some 0, none, some 0, some 0⟩ } =
        [] := by decide

/-- C2 (amended): reward validation succeeds iff the object is entirely
absent (Update mode only — under Create the invented default object fails),
or `amount` and `amountWithoutScale` are present (zero counting as
present), `amount` is non-negative, and `currency` is not the empty string
(`currency` and `scale`, having declared defaults, need not be present);
the all-zero reward is valid and a reward with only `currency` set fails
with `IncompleteComposite`. -/
theorem C2_reward_composite_amended :
    (∀ r : RewardVal,
        rewardViolations .PATCH (some r) = [] ↔
          (r.amount.isSome = true ∧ r.amountWithoutScale.isSome = true ∧
            r.currency ≠ some "" ∧ ∀ a : Int, r.amount = some a → 0 ≤ a))
  ∧ (∀ r : RewardVal,
        rewardViolations .POST (some r) = [] ↔
          (r.amount.isSome = true ∧ r.amountWithoutScale.isSome = true ∧
            r.currency ≠ some "" ∧ ∀ a : Int, r.amount = some a → 0 ≤ a))
  ∧ rewardViolations .PATCH none = []
  ∧ rewardViolations .POST none ≠ []
  ∧ (∀ m, rewardViolations m (some ⟨some 0, some "BANK", some 0, some 0⟩) = [])
  ∧ (∀ m, Violation.IncompleteComposite "reward" ∈
        rewardViolations m (some ⟨none, some "BANK", none, none⟩))
  ∧ (∀ m, Violation.IncompleteComposite "reward" ∈
        validateBounty m
          { emptyCandidate with reward := some ⟨none, some "BANK", none, none⟩ }) := by
  refine ⟨?_, ?_, by decide, by decide, ?_, ?_, ?_⟩
  · intro r
    obtain ⟨amt, cur, sc, aws⟩ := r
    cases amt <;> cases cur <;> cases aws <;>
      simp [rewardViolations, castRewardField, castReward, rewardTest,
        rewardAllDefined, truthy, presenceCheck, requiredForPost, minCheck,
        testCheck]
  · intro r
    obtain ⟨amt, cur, sc, aws⟩ := r
    cases amt <;> cases cur <;> cases aws <;>
      simp [rewardViolations, castRewardField, castReward, rewardTest,
        rewardAllDefined, truthy, presenceCheck, requiredForPost, minCheck,
        testCheck]
  · intro m; cases m <;> decide
  · intro m; cases m <;> decide
  · intro m; cases m <;> decide

/-- C3: the paired-identity rule, with presence decided the way the code
decides it (truthiness): for each of the four identity pairs and in both
modes, validation reports `InconsistentPair` at the pair's path iff exactly
one of `discordId`/`discordHandle` is (truthily) present; a pair that is
both-present, both-absent or entirely missing never produces an
`InconsistentPair` violation. -/
theorem C3_paired_identity :
    (∀ m c u, c.claimedBy = some u →
        (Violation.InconsistentPair "claimedBy" ∈ validateBounty m c ↔
          truthy u.discordId ≠ truthy u.discordHandle))
  ∧ (∀ m c, c.claimedBy = none →
        Violation.InconsistentPair "claimedBy" ∉ validateBounty m c)
  ∧ (∀ m c u, c.submittedBy = some u →
        (Violation.InconsistentPair "submittedBy" ∈ validateBounty m c ↔
          truthy u.discordId ≠ truthy u.discordHandle))
  ∧ (∀ m c, c.submittedBy = none →
        Violation.InconsistentPair "submittedBy" ∉ validateBounty m c)
  ∧ (∀ m c u, c.reviewedBy = some u →
        (Violation.InconsistentPair "reviewedBy" ∈ validateBounty m c ↔
          truthy u.discordId ≠ truthy u.discordHandle))
  ∧ (∀ m c, c.reviewedBy = none →
        Violation.InconsistentPair "reviewedBy" ∉ validateBounty m c)
  ∧ (∀ m c u, c.createdBy = some u →
        (Violation.InconsistentPair "createdBy" ∈ validateBounty m c ↔
          truthy u.discordId ≠ truthy u.discordHandle))
  ∧ (∀ m c, c.createdBy = none →
        Violation.InconsistentPair "createdBy" ∉ validateBounty m c) := by
  refine ⟨?_, ?_, ?_, ?_, ?_, ?_, ?_, ?_⟩
  · intro m c u h
    simp [validateBounty, h, bothRequired_eq_false_iff]
  · intro m c h
    simp [validateBounty, h, bothRequiredIfOneRequired]
  · intro m c u h
    simp [validateBounty, h, bothRequired_eq_false_iff]
  · intro m c h
    simp [validateBounty, h, bothRequiredIfOneRequired]
  · intro m c u h
    simp [validateBounty, h, bothRequired_eq_false_iff]
  · intro m c h
    simp [validateBounty, h, bothRequiredIfOneRequired]
  · intro m c u h
    simp [validateBounty, h, castRequiredDiscordUser, bothRequired_eq_false_iff]
  · intro m c h
    cases m <;>
      simp [validateBounty, h, castRequiredDiscordUser, requiredForPost,
        bothRequiredIfOneRequired, truthy]

/-- C4: the closed-schema property: a candidate carrying a key outside the
declared field set fails with an `UnknownField` violation in every mode,
for both the record validator and the claim validator; and on success the
validated output carries no key outside the declared schema. -/
theorem C4_closed_schema :
    (∀ m c, c.extraKeys ≠ [] →
        Violation.UnknownField c.extraKeys ∈ validateBounty m c)
  ∧ (∀ c, c.extraKeys ≠ [] →
        Violation.UnknownField c.extraKeys ∈ validateClaim c)
  ∧ (∀ m c, validateBounty m c = [] → (castBounty m c).extraKeys = [])
  ∧ (∀ c, validateClaim c = [] → c.extraKeys = []) := by
  refine ⟨?_, ?_, ?_, ?_⟩
  · exact fun m c h => unknownField_mem_validateBounty h
  · exact fun c h => unknownField_mem_validateClaim h
  · intro m c h
    by_cases hk : c.extraKeys = []
    · simp [castBounty, hk]
    · exact absurd (h ▸ unknownField_mem_validateBounty (m := m) hk)
        (List.not_mem_nil _)
  · intro c h
    by_cases hk : c.extraKeys = []
    · exact hk
    · exact absurd (h ▸ unknownField_mem_validateClaim hk) (List.not_mem_nil _)

/-- The spec's claim-validator success scenario, with the claimer identity
removed entirely. -/
def claimMissingClaimer : ClaimCandidate where
  submissionNotes := some "done"
  claimedBy := none
  status := some "In-Review"
  statusHistory := some [⟨some "In-Review", some "2024-02-01"⟩]
  extraKeys := []

/-- C5: the claim validator enforces `submissionNotes`, `status` and a
non-empty `statusHistory`, and its pairing test fires on a half-set
claimer — but a candidate with `claimedBy` entirely absent VALIDATES
SUCCESSFULLY: yup casts the absent object to the invented default built
from the sub-field defaults, so `DiscordUser.required()` never sees an
absent value.  The first conjunct exhibits the divergence from the claim
(the code accepts a claim with no claimer identity). -/
theorem C5_claim_validator_behavior :
    validateClaim claimMissingClaimer = []
  ∧ validateClaim { claimMissingClaimer with claimedBy := some ⟨none, none⟩ } = []
  ∧ validateClaim { claimMissingClaimer with submissionNotes := none } =
      [.MissingRequiredField "submissionNotes"]
  ∧ validateClaim { claimMissingClaimer with status := none } =
      [.MissingRequiredField "status"]
  ∧ validateClaim { claimMissingClaimer with statusHistory := none } =
      [.MissingRequiredField "statusHistory"]
  ∧ validateClaim { claimMissingClaimer with statusHistory := some [] } =
      [.MissingRequiredField "statusHistory"]
  ∧ validateClaim { claimMissingClaimer with claimedBy := some ⟨some "1", none⟩ } =
      [.InconsistentPair "claimedBy"] := by decide

/-- C6 counterexample: a candidate missing the Create-required scalar
`title` (and also `description`) reports a violation for the other field
too, so "no other field is reported as a violation" fails as a universal
statement about every candidate missing a Create-required field. -/
theorem C6_counterexample :
    validateBounty .POST { baseCreate with title := none, description := none } =
      [.MissingRequiredField "title", .MissingRequiredField "description"] := by
  decide

/-- C6 (amended): every candidate missing a Create-required scalar field
fails Create-mode validation with `MissingRequiredField` at exactly that
field's path; and for every otherwise-valid candidate (one that validates
successfully under Create), omitting exactly that one field makes that
`MissingRequiredField` the only violation reported. -/
theorem C6_missing_required_scalar :
    (∀ f c, governedScalar f = true → getScalar f c = none →
        validateBounty .POST c ≠ [] ∧
        Violation.MissingRequiredField (scalarPath f) ∈ validateBounty .POST c)
  ∧ (∀ f c, governedScalar f = true → validateBounty .POST c = [] →
        validateBounty .POST (setScalar f none c) =
          [.MissingRequiredField (scalarPath f)]) := by
  constructor
  · intro f c hf h
    have hm := governed_missing_mem_post hf h
    exact ⟨fun hnil => absurd (hnil ▸ hm) (List.not_mem_nil _), hm⟩
  · intro f c hf h
    cases f <;>
      simp_all [validateBounty, setScalar, scalarPath, governedScalar,
        scalarReqCheck, presenceCheck, requiredForPost, oneOfCheck,
        Option.isSome_iff_ne_none]

/-- C7: Update-mode omission of any scalar field is "no change": the
validated (cast) output leaves the field absent, so merging the output
over a stored record keeps the stored value. -/
theorem C7_update_omission_preserves :
    ∀ f c stored, getScalar f c = none →
      getScalar f (castBounty .PATCH c) = none ∧
      mergeScalar (getScalar f stored) (getScalar f (castBounty .PATCH c)) =
        getScalar f stored := by
  intro f c stored h
  have hc : getScalar f (castBounty .PATCH c) = none := by
    cases f <;> simpa [castBounty, getScalar] using h
  exact ⟨hc, by rw [hc]; rfl⟩

/-- C7 witness: omitting `title` in an Update leaves the stored title. -/
theorem C7_witness :
    getScalar .title (castBounty .PATCH emptyCandidate) = none ∧
      mergeScalar (getScalar .title baseCreate)
        (getScalar .title (castBounty .PATCH emptyCandidate)) =
        getScalar .title baseCreate :=
  C7_update_omission_preserves .title emptyCandidate baseCreate rfl

/-- C8: the status enumeration is closed: a present status value outside
the declared set produces an `InvalidEnumValue` violation (at the `status`
path of either validator, and at the entry's path for status-history
entries), and every value inside the set passes the enumeration check. -/
theorem C8_status_closed_enum :
    (∀ p v, statusList.contains v = false →
        oneOfCheck p (some v) = [.InvalidEnumValue p v])
  ∧ (∀ p v, statusList.contains v = true → oneOfCheck p (some v) = [])
  ∧ (∀ p, oneOfCheck p none = [])
  ∧ (∀ m c v, c.status = some v → statusList.contains v = false →
        Violation.InvalidEnumValue "status" v ∈ validateBounty m c)
  ∧ (∀ m c es e v, c.statusHistory = some es → e ∈ es → e.status = some v →
        statusList.contains v = false →
        ∃ p, Violation.InvalidEnumValue p v ∈ validateBounty m c)
  ∧ (∀ c v, c.status = some v → statusList.contains v = false →
        Violation.InvalidEnumValue "status" v ∈ validateClaim c) := by
  refine ⟨?_, ?_, fun p => rfl, ?_, ?_, ?_⟩
  · intro p v hv
    have hv2 : v ∉ statusList := by simpa using hv
    simp [oneOfCheck, hv2]
  · intro p v hv
    have hv2 : v ∈ statusList := by simpa using hv
    simp [oneOfCheck, hv2]
  · intro m c v h hv
    have hv2 : v ∉ statusList := by simpa using hv
    simp [validateBounty, h, hv2]
  · intro m c es e v hse he hs hv
    obtain ⟨p, hp⟩ := statusHistory_mem_of_bad he hs hv 0
    refine ⟨p, ?_⟩
    rw [validateBounty]
    simp only [List.mem_append]
    have hmem : Violation.InvalidEnumValue p v ∈
        statusHistoryField "statusHistory" c.statusHistory := by
      rw [hse]; exact hp
    tauto
  · intro c v h hv
    have hv2 : v ∉ statusList := by simpa using hv
    simp [validateClaim, h, hv2]

/-- C9: the implicit lower bound on the reward amount: a present negative
`reward.amount` always produces a below-minimum violation (yup's `min(0)`),
in both modes, even when all four reward fields are present. -/
theorem C9_negative_reward_amount :
    ∀ m c r a, c.reward = some r → r.amount = some a → a < 0 →
      Violation.BelowMin "reward.amount" ∈ validateBounty m c := by
  intro m c r a h1 h2 h3
  rw [validateBounty]
  simp only [List.mem_append]
  have hmem : Violation.BelowMin "reward.amount" ∈ rewardViolations m c.reward := by
    rw [h1]
    simp [rewardViolations, castRewardField, castReward, h2, h3]
  tauto

/-- C9 witness: a reward of −5 with all four fields present is rejected in
Update mode. -/
theorem C9_witness :
    Violation.BelowMin "reward.amount" ∈ validateBounty .PATCH
      { emptyCandidate with
          reward := some ⟨some (-5), some "BANK", some 0, some 0⟩ } :=
  C9_negative_reward_amount .PATCH _ _ (-5) rfl rfl (by decide)

/-- C10: presence in the pairing rule is JavaScript truthiness, so the
empty string counts as absent: a pair with one non-empty field and the
other the empty string is rejected as inconsistent, while a pair with both
fields the empty string passes the pairing check. -/
theorem C10_truthiness_empty_string :
    (∀ s : String, s ≠ "" →
        discordUserViolations "claimedBy" (some ⟨some s, some ""⟩) =
          [.InconsistentPair "claimedBy"] ∧
        discordUserViolations "claimedBy" (some ⟨some "", some s⟩) =
          [.InconsistentPair "claimedBy"])
  ∧ discordUserViolations "claimedBy" (some ⟨some "", some ""⟩) = []
  ∧ bothRequiredIfOneRequired (some ⟨some "", some ""⟩) = true
  ∧ Violation.InconsistentPair "claimedBy" ∈ validateBounty .PATCH
      { emptyCandidate with claimedBy := some ⟨some "x", some ""⟩ }
  ∧ validateBounty .PATCH
      { emptyCandidate with claimedBy := some ⟨some "", some ""⟩ } = [] := by
  refine ⟨?_, by decide, by decide, by decide, by decide⟩
  intro s hs
  constructor <;>
    simp [discordUserViolations, bothRequiredIfOneRequired, truthy, testCheck, hs]

end BountyBoard
